/-
Verification of the run/job supervision subsystem of `ui/app.py`
(open_telco repository): the progress parser, the command builder, the
run registry with its snapshot projection, the overall-status
aggregation, and the cancellation handler.

Shallow embedding conventions:
  * Python dictionaries holding job / run state become Lean structures.
  * Python floats (timestamps, ratios) are modelled as rationals.
  * Python unbounded integers are modelled as `Int`.
  * JSON payload fields that the code reads with `.get(...)` become
    `Option`-typed structure fields; a missing key is `none`.
  * Subprocess and thread handles are not representable; the state they
    influence (status, returncode, the spawned command lines) is modelled
    explicitly.
-/
import Mathlib

set_option maxHeartbeats 1000000
set_option maxRecDepth 8192

namespace OpenTelcoUi

/-- Lifecycle status of a job, exactly the strings assigned to
`job["status"]` in `ui/app.py`. -/
inductive JobStatus
  | queued
  | running
  | cancelling
  | complete
  | failed
  | cancelled
  deriving DecidableEq, Repr

/-- Terminal statuses per the state machine: `complete`, `failed`,
`cancelled`. -/
def isTerminal : JobStatus → Bool
  | .complete => true
  | .failed => true
  | .cancelled => true
  | _ => false

/-- One job dictionary as created in `_register_run` (the `process` and
`thread` handles are not modelled; `log_tail` is the deque of raw lines). -/
structure Job where
  job_id : String
  model : String
  display_name : String
  provider : Option String
  status : JobStatus
  samples_completed : Int
  total_samples : Option Int
  error : Option String
  started_at : Option ℚ
  finished_at : Option ℚ
  cancel_requested : Bool
  returncode : Option Int
  log_tail : List String
  last_update : Option ℚ
  deriving DecidableEq, Repr

/-- A convenient fully-populated job value used for concrete instances. -/
def baseJob : Job :=
  { job_id := "job0"
    model := "provider/model"
    display_name := "model"
    provider := none
    status := JobStatus.running
    samples_completed := 0
    total_samples := none
    error := none
    started_at := none
    finished_at := none
    cancel_requested := false
    returncode := none
    log_tail := []
    last_update := none }

/-- The `results` object of a progress payload
(`{"results": {"total_samples": .., "completed_samples": ..}}`). -/
structure ResultsShape where
  total_samples : Option Int
  completed_samples : Option Int
  deriving DecidableEq, Repr

/-- The `progress` object of a progress payload
(`{"progress": {"total": .., "completed": ..}}`). -/
structure ProgressShape where
  total : Option Int
  completed : Option Int
  deriving DecidableEq, Repr

/-- The `sample` object of a progress payload
(`{"sample": {"total": .., "completed": .., "index": ..}}`). -/
structure SampleShape where
  total : Option Int
  completed : Option Int
  index : Option Int
  deriving DecidableEq, Repr

/-- A parsed JSON-object line, restricted to the keys `_apply_results`
reads.  A key the line does not carry is `none`. -/
structure Payload where
  results : Option ResultsShape
  progress : Option ProgressShape
  sample : Option SampleShape
  event : Option String
  completed : Option Int
  deriving DecidableEq, Repr

/-- `if total is not None: job["total_samples"] = total` — the pattern
shared by the `results`, `progress` and `sample` blocks. -/
def setTotal (job : Job) (t : Option Int) : Job :=
  match t with
  | some t' => { job with total_samples := some t' }
  | none => job

/-- `if completed is not None: job["samples_completed"] = completed` —
the UNCONDITIONAL assignment used by the `results` and `progress`
blocks (no monotonicity guard in the source). -/
def setCompletedUncond (job : Job) (c : Option Int) : Job :=
  match c with
  | some c' => { job with samples_completed := c' }
  | none => job

/-- `if completed > job.get("samples_completed", 0): job[...] = completed`
— the guarded update used by the `sample` and `event` blocks. -/
def raiseCompleted (job : Job) (c : Int) : Job :=
  if job.samples_completed < c then { job with samples_completed := c } else job

/-- The `results` block of `_apply_results` (ui/app.py lines 174-181). -/
def applyResultsShape (job : Job) (p : Payload) : Job :=
  match p.results with
  | none => job
  | some r => setCompletedUncond (setTotal job r.total_samples) r.completed_samples

/-- The `progress` block of `_apply_results` (lines 183-190). -/
def applyProgressShape (job : Job) (p : Payload) : Job :=
  match p.progress with
  | none => job
  | some r => setCompletedUncond (setTotal job r.total) r.completed

/-- The `sample` block of `_apply_results` (lines 192-205): `completed`
and `index + 1` are applied only when they exceed the stored count. -/
def applySampleShape (job : Job) (p : Payload) : Job :=
  match p.sample with
  | none => job
  | some s =>
    let job := setTotal job s.total
    let job := match s.completed with
      | some c => raiseCompleted job c
      | none => job
    match s.index with
    | some i => raiseCompleted job (i + 1)
    | none => job

/-- The completion event names recognised by `_apply_results` (line 208). -/
def eventNames : List String := ["sample_complete", "sample_success", "sample"]

/-- The `event` block of `_apply_results` (lines 207-211): a guarded
update from the top-level `completed` field. -/
def applyEventShape (job : Job) (p : Payload) : Job :=
  match p.event with
  | none => job
  | some e =>
    if e ∈ eventNames then
      match p.completed with
      | some c => raiseCompleted job c
      | none => job
    else job

/-- `_apply_results` (ui/app.py lines 173-211): the four shape blocks are
applied in source order. -/
def applyResults (job : Job) (p : Payload) : Job :=
  applyEventShape (applySampleShape (applyProgressShape (applyResultsShape job p) p) p) p

/-- `MAX_LOG_LINES` (ui/app.py line 59). -/
def MAX_LOG_LINES : Nat := 200

/-- Appending to `deque(maxlen=MAX_LOG_LINES)`: when the buffer is full
the oldest (leftmost) entry is evicted. -/
def dequeAppend (buf : List String) (line : String) : List String :=
  if buf.length < MAX_LOG_LINES then buf ++ [line] else buf.drop 1 ++ [line]

/-- `_handle_progress` (ui/app.py lines 214-225).  `parse` stands for
`json.loads` restricted to JSON objects: it returns `none` both when the
line is not valid JSON and when it is valid JSON but not an object; in
either case the code returns before `_apply_results`. -/
def handleProgress (parse : String → Option Payload) (job : Job) (now : ℚ)
    (raw : String) : Job :=
  let job := { job with last_update := some now }
  let job := { job with log_tail := dequeAppend job.log_tail raw.trimRight }
  match parse raw with
  | none => job
  | some p => applyResults job p

/-- The `completed_samples` value carried by the `results` shape of a
payload, if any. -/
def resultsCompleted (p : Payload) : Option Int :=
  p.results.bind fun r => r.completed_samples

/-- The `completed` value carried by the `progress` shape of a payload,
if any. -/
def progressCompleted (p : Payload) : Option Int :=
  p.progress.bind fun r => r.completed

theorem setTotal_count (job : Job) (t : Option Int) :
    (setTotal job t).samples_completed = job.samples_completed := by
  cases t <;> rfl

theorem raiseCompleted_mono (job : Job) (c : Int) :
    job.samples_completed ≤ (raiseCompleted job c).samples_completed := by
  unfold raiseCompleted
  split_ifs with h
  · exact le_of_lt h
  · exact le_refl _

theorem setCompletedUncond_none (job : Job) : setCompletedUncond job none = job := rfl

theorem applyResultsShape_count (job : Job) (p : Payload)
    (h : resultsCompleted p = none) :
    (applyResultsShape job p).samples_completed = job.samples_completed := by
  unfold applyResultsShape
  unfold resultsCompleted at h
  cases hr : p.results with
  | none => rfl
  | some r =>
    rw [hr] at h
    simp only [Option.some_bind] at h
    dsimp only
    rw [h, setCompletedUncond_none, setTotal_count]

theorem applyProgressShape_count (job : Job) (p : Payload)
    (h : progressCompleted p = none) :
    (applyProgressShape job p).samples_completed = job.samples_completed := by
  unfold applyProgressShape
  unfold progressCompleted at h
  cases hr : p.progress with
  | none => rfl
  | some r =>
    rw [hr] at h
    simp only [Option.some_bind] at h
    dsimp only
    rw [h, setCompletedUncond_none, setTotal_count]

theorem applySampleShape_mono (job : Job) (p : Payload) :
    job.samples_completed ≤ (applySampleShape job p).samples_completed := by
  unfold applySampleShape
  cases p.sample with
  | none => exact le_refl _
  | some s =>
    dsimp only
    have h1 := setTotal_count job s.total
    cases s.completed with
    | none =>
      cases s.index with
      | none => exact le_of_eq h1.symm
      | some i => exact h1 ▸ raiseCompleted_mono (setTotal job s.total) (i + 1)
    | some c =>
      have h2 := raiseCompleted_mono (setTotal job s.total) c
      cases s.index with
      | none =>
        dsimp only
        omega
      | some i =>
        have h3 := raiseCompleted_mono (raiseCompleted (setTotal job s.total) c) (i + 1)
        dsimp only
        omega

theorem applyEventShape_mono (job : Job) (p : Payload) :
    job.samples_completed ≤ (applyEventShape job p).samples_completed := by
  unfold applyEventShape
  cases p.event with
  | none => exact le_refl _
  | some e =>
    dsimp only
    split_ifs with he
    · cases p.completed with
      | none => exact le_refl _
      | some c => exact raiseCompleted_mono job c
    · exact le_refl _

/-- A job that has already recorded 5 completed samples. -/
def jobFive : Job := { baseJob with samples_completed := 5 }

/-- A progress line `{"progress": {"completed": 2}}` carrying a smaller
completed count than the job has stored. -/
def lowProgressLine : Payload :=
  { results := none
    progress := some { total := none, completed := some 2 }
    sample := none
    event := none
    completed := none }

/-- Claim C1 counterexample: the `progress` shape applies its
completed-count UNCONDITIONALLY, so applying
`{"progress": {"completed": 2}}` to a job with `samples_completed = 5`
LOWERS the count to 2 — the claim that all four shapes apply a new value
only when it exceeds the stored one is false for the `results` and
`progress` shapes. -/
theorem applyResults_progress_decreases :
    (applyResults jobFive lowProgressLine).samples_completed = 2 ∧
    jobFive.samples_completed = 5 := by
  constructor
  · rfl
  · rfl

/-- Claim C1 (amended): `samples_completed` is non-decreasing across any
progress line whose `results` and `progress` shapes carry no completed
count (in particular across all `sample`- and `event`-shaped lines,
whose updates are monotone-guarded); `results`/`progress` completed
counts are assigned unconditionally and may lower it. -/
theorem applyResults_monotone (job : Job) (p : Payload)
    (hr : resultsCompleted p = none) (hp : progressCompleted p = none) :
    job.samples_completed ≤ (applyResults job p).samples_completed := by
  unfold applyResults
  have h1 := applyResultsShape_count job p hr
  have h2 := applyProgressShape_count (applyResultsShape job p) p hp
  have h3 := applySampleShape_mono (applyProgressShape (applyResultsShape job p) p) p
  have h4 := applyEventShape_mono
    (applySampleShape (applyProgressShape (applyResultsShape job p) p) p) p
  omega

/-- A sample line `{"sample": {"index": 3}}`. -/
def sampleIndexThree : Payload :=
  { results := none
    progress := none
    sample := some { total := none, completed := none, index := some 3 }
    event := none
    completed := none }

theorem applyResults_monotone_witness :
    baseJob.samples_completed ≤ (applyResults baseJob sampleIndexThree).samples_completed :=
  applyResults_monotone baseJob sampleIndexThree rfl rfl

theorem dequeAppend_length (buf : List String) (line : String)
    (h : buf.length ≤ MAX_LOG_LINES) :
    (dequeAppend buf line).length ≤ MAX_LOG_LINES := by
  unfold dequeAppend
  split_ifs with hlt
  · simp only [List.length_append, List.length_cons, List.length_nil]
    omega
  · simp only [List.length_append, List.length_drop, List.length_cons, List.length_nil]
    unfold MAX_LOG_LINES at *
    omega

theorem dequeAppend_not_full (buf : List String) (line : String)
    (h : buf.length < MAX_LOG_LINES) :
    dequeAppend buf line = buf ++ [line] := by
  unfold dequeAppend
  rw [if_pos h]

theorem dequeAppend_full (buf : List String) (line : String)
    (h : buf.length = MAX_LOG_LINES) :
    dequeAppend buf line = buf.drop 1 ++ [line] := by
  unfold dequeAppend
  rw [if_neg (by omega)]

/-- Claim C4: for a line that is not a valid JSON object (`parse raw =
none`), `_handle_progress` leaves `samples_completed` and
`total_samples` unchanged and appends the line, trimmed of trailing
whitespace, to the tail buffer; the buffer capacity is exactly
`MAX_LOG_LINES = 200` with ring-buffer semantics: an append to a full
buffer evicts the oldest (leftmost) stored line. -/
theorem handleProgress_non_json (parse : String → Option Payload) (job : Job)
    (now : ℚ) (raw : String) (hparse : parse raw = none)
    (hcap : job.log_tail.length ≤ MAX_LOG_LINES) :
    (handleProgress parse job now raw).samples_completed = job.samples_completed ∧
    (handleProgress parse job now raw).total_samples = job.total_samples ∧
    (handleProgress parse job now raw).log_tail = dequeAppend job.log_tail raw.trimRight ∧
    (handleProgress parse job now raw).log_tail.length ≤ MAX_LOG_LINES ∧
    MAX_LOG_LINES = 200 ∧
    (job.log_tail.length < MAX_LOG_LINES →
      (handleProgress parse job now raw).log_tail = job.log_tail ++ [raw.trimRight]) ∧
    (job.log_tail.length = MAX_LOG_LINES →
      (handleProgress parse job now raw).log_tail = job.log_tail.drop 1 ++ [raw.trimRight]) := by
  have hform : handleProgress parse job now raw =
      { job with last_update := some now
                 log_tail := dequeAppend job.log_tail raw.trimRight } := by
    unfold handleProgress
    rw [hparse]
  rw [hform]
  refine ⟨rfl, rfl, rfl, dequeAppend_length _ _ hcap, rfl, ?_, ?_⟩
  · intro hlt
    exact dequeAppend_not_full _ _ hlt
  · intro heq
    exact dequeAppend_full _ _ heq

/-- A job whose tail buffer is full (200 stored lines). -/
def jobFullTail : Job := { baseJob with log_tail := List.replicate 200 "x" }

theorem handleProgress_non_json_witness :
    (handleProgress (fun _ => none) jobFullTail 0 "tail line").log_tail
      = jobFullTail.log_tail.drop 1 ++ ["tail line".trimRight] :=
  (handleProgress_non_json (fun _ => none) jobFullTail 0 "tail line" rfl
    (by decide)).2.2.2.2.2.2 (by decide)

/-- `_progress_ratio` (ui/app.py lines 92-100): `None` for a falsy total
(missing or zero), otherwise `completed / total` clamped to `[0, 1]`. -/
def progressFrac (completed : Int) (total : Option Int) : Option ℚ :=
  match total with
  | none => none
  | some t =>
    if t = 0 then none
    else
      let frac : ℚ := (completed : ℚ) / (t : ℚ)
      if frac < 0 then some 0
      else if 1 < frac then some 1
      else some frac

/-- Round-half-to-even on a rational, as Python's `round` behaves on an
exactly-representable argument. -/
def roundHalfEven (q : ℚ) : Int :=
  let f := ⌊q⌋
  let r := q - (f : ℚ)
  if r < 1 / 2 then f
  else if 1 / 2 < r then f + 1
  else if f % 2 = 0 then f else f + 1

/-- Python's `round(x, 2)`. -/
def pyRound2 (x : ℚ) : ℚ := ((roundHalfEven (x * 100) : Int) : ℚ) / 100

/-- The `progress_percent` field of `_snapshot_job` (ui/app.py lines
134-140): `round(ratio * 100, 2)` when the ratio is defined. -/
def snapshotProgressPercent (job : Job) : Option ℚ :=
  (progressFrac job.samples_completed job.total_samples).map fun frac => pyRound2 (frac * 100)

/-- A job starting at 0 completed samples with a known total of 10. -/
def jobTenTotal : Job := { baseJob with samples_completed := 0, total_samples := some 10 }

/-- The job state after the ten lines `{"sample": {"index": 0}}` …
`{"sample": {"index": 9}}` are applied in order. -/
def jobAfterTenSamples : Job :=
  (List.range 10).foldl
    (fun j i =>
      applyResults j
        { results := none
          progress := none
          sample := some { total := none, completed := none, index := some (i : Int) }
          event := none
          completed := none })
    jobTenTotal

/-- Claim C5: starting from `samples_completed = 0`, `total_samples = 10`,
applying `{"sample":{"index":0}}` … `{"sample":{"index":9}}` in order
yields `samples_completed = 10` and a snapshot `progress_percent` of
exactly `100.0`. -/
theorem sample_index_sequence_full_progress :
    jobAfterTenSamples.samples_completed = 10 ∧
    snapshotProgressPercent jobAfterTenSamples = some 100 := by
  have hc : jobAfterTenSamples.samples_completed = 10 := by decide
  have ht : jobAfterTenSamples.total_samples = some 10 := by decide
  refine ⟨hc, ?_⟩
  unfold snapshotProgressPercent
  rw [hc, ht]
  norm_num [progressFrac, pyRound2, roundHalfEven]

/-- The `end_point` computation shared by `_estimate_remaining` and
`_snapshot_job`: the current time unless a truthy `finished_at` is set
(Python truthiness: a `None` or `0.0` finish timestamp is ignored). -/
def etaEndPoint (finishedAt : Option ℚ) (now : ℚ) : ℚ :=
  match finishedAt with
  | some ft => if ft = 0 then now else ft
  | none => now

/-- `_estimate_remaining` (ui/app.py lines 110-131).  Every guard in the
source is a Python falsiness test (`if not completed`, `if not total`,
`if not started_at`), modelled as equality with zero / `none`. -/
def estimateRemaining (completed : Int) (total : Option Int)
    (startedAt finishedAt : Option ℚ) (now : ℚ) : Option ℚ :=
  if completed = 0 then none
  else
    match total with
    | none => none
    | some t =>
      if t = 0 then none
      else
        match startedAt with
        | none => none
        | some st =>
          if st = 0 then none
          else
            let elapsed := etaEndPoint finishedAt now - st
            if elapsed ≤ 0 then none
            else if t - completed ≤ 0 then some 0
            else some (((t - completed : Int) : ℚ) * (elapsed / (completed : ℚ)))

/-- `_estimate_remaining` applied to a job dictionary. -/
def jobEta (job : Job) (now : ℚ) : Option ℚ :=
  estimateRemaining job.samples_completed job.total_samples job.started_at
    job.finished_at now

/-- Normal form of `_estimate_remaining` when both total and start time
are present: a flat chain of the source's guards. -/
theorem estimateRemaining_some_some (c t : Int) (stv : ℚ) (ft : Option ℚ)
    (now : ℚ) :
    estimateRemaining c (some t) (some stv) ft now =
      (if c = 0 then none
       else if t = 0 then none
       else if stv = 0 then none
       else if etaEndPoint ft now - stv ≤ 0 then none
       else if t - c ≤ 0 then some 0
       else some (((t - c : Int) : ℚ) * ((etaEndPoint ft now - stv) / (c : ℚ)))) :=
  rfl

theorem estimateRemaining_total_none (c : Int) (st ft : Option ℚ) (now : ℚ) :
    estimateRemaining c none st ft now = none := by
  unfold estimateRemaining
  split_ifs <;> rfl

theorem estimateRemaining_started_none (c t : Int) (ft : Option ℚ) (now : ℚ) :
    estimateRemaining c (some t) none ft now = none := by
  unfold estimateRemaining
  by_cases hc : c = 0
  · rw [if_pos hc]
  · rw [if_neg hc]
    dsimp only
    split_ifs <;> rfl

/-- Claim C6 counterexample: the source guards with `if not completed`,
which only rejects `completed == 0`; with `samples_completed = -1`
(reachable, since the `results`/`progress` payload shapes assign
arbitrary integers unconditionally), `total = 5`, `started_at = 1` and
`now = 11` the ETA is DEFINED (and negative), so "undefined (null)
unless completed > 0" is false as stated. -/
theorem estimateRemaining_negative_completed :
    estimateRemaining (-1) (some 5) (some 1) none 11 = some (-60) ∧
    ¬ (0 < (-1 : Int)) := by
  constructor
  · rw [estimateRemaining_some_some]
    unfold etaEndPoint
    norm_num
  · decide

/-- Claim C6 (amended): the ETA is
`(total − completed) × (elapsed / completed)`, undefined (None) unless
`completed ≠ 0` (the falsiness guard admits negative counts, not just
positive ones) and the total is known; it is clamped to zero when
`total − completed ≤ 0`; a started job with `completed = 5`,
`total = 20`, `elapsed = 50` has ETA exactly `150`; `completed = 0`
gives None. -/
theorem estimateRemaining_spec :
    (∀ (c : Int) (t : Option Int) (st ft : Option ℚ) (now : ℚ) (r : ℚ),
        estimateRemaining c t st ft now = some r → c ≠ 0 ∧ t ≠ none) ∧
    (∀ (t : Option Int) (st ft : Option ℚ) (now : ℚ),
        estimateRemaining 0 t st ft now = none) ∧
    (∀ (c tv : Int) (st ft : Option ℚ) (now : ℚ) (r : ℚ),
        estimateRemaining c (some tv) st ft now = some r → tv - c ≤ 0 → r = 0) ∧
    (∀ (c tv : Int) (stv : ℚ) (ft : Option ℚ) (now : ℚ) (r : ℚ),
        estimateRemaining c (some tv) (some stv) ft now = some r → 0 < tv - c →
          r = ((tv - c : Int) : ℚ) * ((etaEndPoint ft now - stv) / (c : ℚ))) ∧
    estimateRemaining 5 (some 20) (some 100) none 150 = some 150 := by
  refine ⟨?_, ?_, ?_, ?_, ?_⟩
  · intro c t st ft now r h
    by_cases hc : c = 0
    · subst hc
      unfold estimateRemaining at h
      rw [if_pos rfl] at h
      simp at h
    · refine ⟨hc, ?_⟩
      intro ht
      subst ht
      rw [estimateRemaining_total_none] at h
      simp at h
  · intro t st ft now
    unfold estimateRemaining
    rw [if_pos rfl]
  · intro c tv st ft now r h hle
    cases st with
    | none =>
      rw [estimateRemaining_started_none] at h
      simp at h
    | some stv =>
      rw [estimateRemaining_some_some] at h
      by_cases h1 : c = 0
      · rw [if_pos h1] at h
        simp at h
      rw [if_neg h1] at h
      by_cases h2 : tv = 0
      · rw [if_pos h2] at h
        simp at h
      rw [if_neg h2] at h
      by_cases h3 : stv = 0
      · rw [if_pos h3] at h
        simp at h
      rw [if_neg h3] at h
      by_cases h4 : etaEndPoint ft now - stv ≤ 0
      · rw [if_pos h4] at h
        simp at h
      rw [if_neg h4] at h
      rw [if_pos hle] at h
      injection h with h
      exact h.symm
  · intro c tv stv ft now r h hgt
    rw [estimateRemaining_some_some] at h
    by_cases h1 : c = 0
    · rw [if_pos h1] at h
      simp at h
    rw [if_neg h1] at h
    by_cases h2 : tv = 0
    · rw [if_pos h2] at h
      simp at h
    rw [if_neg h2] at h
    by_cases h3 : stv = 0
    · rw [if_pos h3] at h
      simp at h
    rw [if_neg h3] at h
    by_cases h4 : etaEndPoint ft now - stv ≤ 0
    · rw [if_pos h4] at h
      simp at h
    rw [if_neg h4] at h
    rw [if_neg (by omega : ¬ tv - c ≤ 0)] at h
    injection h with h
    exact h.symm
  · rw [estimateRemaining_some_some]
    unfold etaEndPoint
    norm_num

theorem estimateRemaining_spec_witness :
    (150 : ℚ) = ((20 - 5 : Int) : ℚ) * ((etaEndPoint none 150 - 100) / (5 : ℚ)) :=
  estimateRemaining_spec.2.2.2.1 5 20 100 none 150 150
    estimateRemaining_spec.2.2.2.2 (by norm_num)

/-- Normal form of `_progress_ratio` for a present total. -/
theorem progressFrac_some (c t : Int) :
    progressFrac c (some t) =
      (if t = 0 then none
       else if (c : ℚ) / (t : ℚ) < 0 then some 0
       else if 1 < (c : ℚ) / (t : ℚ) then some 1
       else some ((c : ℚ) / (t : ℚ))) :=
  rfl

theorem progressFrac_bounds (c : Int) (t : Option Int) (q : ℚ)
    (h : progressFrac c t = some q) : 0 ≤ q ∧ q ≤ 1 := by
  cases t with
  | none =>
    unfold progressFrac at h
    simp at h
  | some tv =>
    rw [progressFrac_some] at h
    by_cases h1 : tv = 0
    · rw [if_pos h1] at h
      simp at h
    rw [if_neg h1] at h
    by_cases h2 : (c : ℚ) / (tv : ℚ) < 0
    · rw [if_pos h2] at h
      have hq : (0 : ℚ) = q := by injection h
      rw [← hq]
      norm_num
    rw [if_neg h2] at h
    by_cases h3 : 1 < (c : ℚ) / (tv : ℚ)
    · rw [if_pos h3] at h
      have hq : (1 : ℚ) = q := by injection h
      rw [← hq]
      norm_num
    rw [if_neg h3] at h
    have hq : (c : ℚ) / (tv : ℚ) = q := by injection h
    rw [← hq]
    exact ⟨not_lt.mp h2, not_lt.mp h3⟩

theorem roundHalfEven_nonneg (q : ℚ) (h : 0 ≤ q) : 0 ≤ roundHalfEven q := by
  unfold roundHalfEven
  have hf : 0 ≤ ⌊q⌋ := Int.floor_nonneg.mpr h
  dsimp only
  split_ifs <;> omega

theorem roundHalfEven_le (q : ℚ) (n : Int) (h : q ≤ (n : ℚ)) :
    roundHalfEven q ≤ n := by
  unfold roundHalfEven
  have hf : ⌊q⌋ ≤ n := by
    have hmono := Int.floor_le_floor h
    rwa [Int.floor_intCast] at hmono
  have hq : (⌊q⌋ : ℚ) ≤ q := Int.floor_le q
  dsimp only
  split_ifs with h1 h2 h3
  · exact hf
  · have hlt : (⌊q⌋ : ℚ) < (n : ℚ) := by linarith
    have : ⌊q⌋ < n := by exact_mod_cast hlt
    omega
  · exact hf
  · have h4 : q - (⌊q⌋ : ℚ) = 1 / 2 := le_antisymm (not_lt.mp h2) (not_lt.mp h1)
    have hlt : (⌊q⌋ : ℚ) < (n : ℚ) := by linarith
    have : ⌊q⌋ < n := by exact_mod_cast hlt
    omega

/-- Claim C10: in `_progress_ratio` a zero total is treated exactly like
an unknown total (ratio and percent are `None`, no division by zero),
and whenever `progress_percent` is defined it lies within `[0, 100]`, no
matter how large or negative the stored completed count is. -/
theorem progress_percent_range (job : Job) :
    progressFrac job.samples_completed (some 0) = none ∧
    progressFrac job.samples_completed none = none ∧
    (job.total_samples = some 0 → snapshotProgressPercent job = none) ∧
    (job.total_samples = none → snapshotProgressPercent job = none) ∧
    (∀ p, snapshotProgressPercent job = some p → 0 ≤ p ∧ p ≤ 100) := by
  have hz : progressFrac job.samples_completed (some 0) = none := by
    rw [progressFrac_some]
    exact if_pos rfl
  refine ⟨hz, rfl, ?_, ?_, ?_⟩
  · intro h
    unfold snapshotProgressPercent
    rw [h, hz]
    rfl
  · intro h
    unfold snapshotProgressPercent
    rw [h]
    rfl
  · intro p hp
    unfold snapshotProgressPercent at hp
    cases hf : progressFrac job.samples_completed job.total_samples with
    | none =>
      rw [hf] at hp
      simp only [Option.map_none'] at hp
      exact absurd hp (by simp)
    | some q =>
      rw [hf] at hp
      simp only [Option.map_some', Option.some.injEq] at hp
      obtain ⟨h0, h1⟩ := progressFrac_bounds _ _ _ hf
      subst hp
      unfold pyRound2
      constructor
      · have hnn : (0 : ℚ) ≤ q * 100 * 100 := by positivity
        have hr := roundHalfEven_nonneg (q * 100 * 100) hnn
        have hcast : (0 : ℚ) ≤ (roundHalfEven (q * 100 * 100) : ℚ) := by
          exact_mod_cast hr
        linarith
      · have hle : q * 100 * 100 ≤ ((10000 : Int) : ℚ) := by
          push_cast
          linarith
        have hr := roundHalfEven_le (q * 100 * 100) 10000 hle
        have hcast : ((roundHalfEven (q * 100 * 100) : Int) : ℚ) ≤ 10000 := by
          exact_mod_cast hr
        linarith

/-- A job claiming more completed samples than its total. -/
def jobOverTotal : Job :=
  { baseJob with samples_completed := 150, total_samples := some 100 }

theorem progress_percent_range_witness :
    0 ≤ (100 : ℚ) ∧ (100 : ℚ) ≤ 100 :=
  (progress_percent_range jobOverTotal).2.2.2.2 100
    (by norm_num [snapshotProgressPercent, jobOverTotal, baseJob, progressFrac,
      pyRound2, roundHalfEven])

/-- A JSON value held in one slot of the options bag: absent (`None`),
an integer, or a string — the cases the dashboard's request payloads
produce.  Python truthiness and `str()` are defined on these. -/
inductive OptValue
  | vnone
  | vint (n : Int)
  | vstr (s : String)
  deriving DecidableEq, Repr

/-- Python truthiness of an option slot: `None`, `0` and `""` are falsy. -/
def OptValue.truthy : OptValue → Bool
  | .vnone => false
  | .vint n => decide (n ≠ 0)
  | .vstr s => decide (s ≠ "")

/-- Python `str()` of an option slot. -/
def OptValue.render : OptValue → String
  | .vnone => "None"
  | .vint n => toString n
  | .vstr s => s

/-- The options bag assembled by `_register_run` (ui/app.py lines
379-385). -/
structure Options where
  difficulty : OptValue
  limit : OptValue
  max_connections : OptValue
  max_tokens : OptValue
  temperature : OptValue
  deriving DecidableEq, Repr

/-- An options bag with every slot absent. -/
def emptyOptions : Options :=
  { difficulty := .vnone
    limit := .vnone
    max_connections := .vnone
    max_tokens := .vnone
    temperature := .vnone }

/-- One run registry entry (ui/app.py lines 387-393); the job mapping is
modelled as a list of jobs. -/
structure RunEntry where
  run_id : String
  task : String
  created_at : ℚ
  options : Options
  models : List Job
  deriving DecidableEq, Repr

/-- The per-job body of the `cancel_run` loop (ui/app.py lines 528-530):
`cancel_requested` is set and the status is overwritten with
`cancelling` — with NO check of the job's current status.  (The
`process.terminate()` side effect acts on the external process, not on
the registry state modelled here.) -/
def cancelJob (job : Job) : Job :=
  { job with cancel_requested := true, status := JobStatus.cancelling }

/-- `cancel_run` (ui/app.py lines 522-541) restricted to its registry
mutation: every job of the run is passed through `cancelJob`. -/
def cancelRun (run : RunEntry) : RunEntry :=
  { run with models := run.models.map cancelJob }

/-- A run holding a single job that already completed. -/
def completedRun : RunEntry :=
  { run_id := "r1"
    task := "telemath"
    created_at := 0
    options := emptyOptions
    models := [{ baseJob with status := JobStatus.complete }] }

/-- Claim C2 counterexample: the cancel handler iterates over ALL jobs
with no terminal-state check, so a job whose status is the terminal
`complete` is moved to `cancelling` — a terminal status does not survive
a cancel, contradicting the claim that every operation leaves terminal
statuses unchanged. -/
theorem cancelRun_overwrites_terminal :
    (cancelRun completedRun).models.map Job.status = [JobStatus.cancelling] ∧
    completedRun.models.map Job.status = [JobStatus.complete] ∧
    isTerminal JobStatus.complete = true :=
  ⟨rfl, rfl, rfl⟩

/-- Claim C2 (amended): `cancel_run` marks EVERY job of the run —
terminal or not — as `cancelling` (and sets its cancellation flag), so
a job in a terminal status (`complete`, `failed` or `cancelled`) has its
status overwritten rather than left unchanged. -/
theorem cancelRun_sets_all_cancelling (run : RunEntry) (job : Job)
    (h : job ∈ run.models) :
    cancelJob job ∈ (cancelRun run).models ∧
    (cancelJob job).status = JobStatus.cancelling ∧
    (cancelJob job).cancel_requested = true ∧
    (isTerminal job.status = true → (cancelJob job).status ≠ job.status) := by
  refine ⟨List.mem_map_of_mem _ h, rfl, rfl, ?_⟩
  intro hterm heq
  rw [show (cancelJob job).status = JobStatus.cancelling from rfl] at heq
  rw [← heq] at hterm
  simp [isTerminal] at hterm

theorem cancelRun_sets_all_cancelling_witness :
    cancelJob { baseJob with status := JobStatus.complete } ∈
      (cancelRun completedRun).models ∧
    (cancelJob { baseJob with status := JobStatus.complete }).status
      = JobStatus.cancelling ∧
    (cancelJob { baseJob with status := JobStatus.complete }).cancel_requested
      = true ∧
    (isTerminal { baseJob with status := JobStatus.complete }.status = true →
      (cancelJob { baseJob with status := JobStatus.complete }).status
        ≠ { baseJob with status := JobStatus.complete }.status) :=
  cancelRun_sets_all_cancelling completedRun _ (by decide)

/-- The overall-status computation of the `run_status` endpoint
(ui/app.py lines 478-499) as a function of the jobs' statuses: the
counts of each status bucket are taken, then a chain of `if` statements
overwrites a default of `"running"` (the LAST matching condition wins,
mirroring the sequential non-elif `if`s in the source). -/
def overallStatus (l : List JobStatus) : String :=
  let total := l.length
  let completedN := l.countP fun s => s == JobStatus.complete
  let failedN := l.countP fun s => s == JobStatus.failed
  let cancelledN := l.countP fun s => s == JobStatus.cancelled
  let runningN := l.countP fun s => s == JobStatus.running
  let queuedN := l.countP fun s => s == JobStatus.queued
  let s0 := "running"
  let s1 := if total = 0 then "empty" else s0
  let s2 := if cancelledN = total ∧ total ≠ 0 then "cancelled" else s1
  let s3 := if failedN ≠ 0 ∧ failedN + completedN + cancelledN = total then "failed" else s2
  let s4 := if completedN = total ∧ total ≠ 0 then "complete" else s3
  if runningN = 0 ∧ queuedN = total ∧ total ≠ 0 then "queued" else s4

/-- `run_status` derives the overall status from the jobs' current
statuses alone (recomputed per poll, never stored). -/
def runOverallStatus (run : RunEntry) : String :=
  overallStatus (run.models.map Job.status)

/-- The overall status as the specification words it: `empty` if no
jobs; `cancelled` if all jobs cancelled; `failed` if every job is
terminal and at least one failed; `complete` if every job is complete;
`queued` if all are queued; otherwise `running` — with priority
cancelled > failed > complete > queued > running. -/
def overallStatusSpec (l : List JobStatus) : String :=
  if l = [] then "empty"
  else if ∀ s ∈ l, s = JobStatus.cancelled then "cancelled"
  else if (∀ s ∈ l, isTerminal s = true) ∧ (∃ s ∈ l, s = JobStatus.failed) then "failed"
  else if ∀ s ∈ l, s = JobStatus.complete then "complete"
  else if ∀ s ∈ l, s = JobStatus.queued then "queued"
  else "running"

theorem status_count_partition (l : List JobStatus) :
    l.countP (fun s => s == JobStatus.queued) +
    l.countP (fun s => s == JobStatus.running) +
    l.countP (fun s => s == JobStatus.cancelling) +
    l.countP (fun s => s == JobStatus.complete) +
    l.countP (fun s => s == JobStatus.failed) +
    l.countP (fun s => s == JobStatus.cancelled) = l.length := by
  induction l with
  | nil => rfl
  | cons a t ih =>
    cases a <;> simp [List.countP_cons] <;> omega

theorem terminal_count (l : List JobStatus) :
    l.countP (fun s => isTerminal s) =
      l.countP (fun s => s == JobStatus.failed) +
      l.countP (fun s => s == JobStatus.complete) +
      l.countP (fun s => s == JobStatus.cancelled) := by
  induction l with
  | nil => rfl
  | cons a t ih =>
    simp only [List.countP_cons]
    rw [ih]
    cases a <;> simp [isTerminal] <;> omega

theorem countP_status_eq_length (l : List JobStatus) (x : JobStatus) :
    l.countP (fun s => s == x) = l.length ↔ ∀ s ∈ l, s = x := by
  rw [List.countP_eq_length]
  simp

theorem countP_status_pos (l : List JobStatus) (x : JobStatus) :
    l.countP (fun s => s == x) ≠ 0 ↔ ∃ s ∈ l, s = x := by
  constructor
  · intro h
    obtain ⟨a, ha, hx⟩ := List.countP_pos_iff.mp (Nat.pos_of_ne_zero h)
    exact ⟨a, ha, by simpa using hx⟩
  · rintro ⟨a, ha, rfl⟩
    have hp : 0 < l.countP (fun s => s == a) :=
      List.countP_pos_iff.mpr ⟨a, ha, by simp⟩
    omega

theorem countP_terminal_eq_length (l : List JobStatus) :
    l.countP (fun s => isTerminal s) = l.length ↔ ∀ s ∈ l, isTerminal s = true :=
  List.countP_eq_length

/-- Claim C3: the overall status of a run is a pure function of its
jobs' current statuses and agrees everywhere with the specification's
case description (priority cancelled > failed > complete > queued >
running); in particular a run with exactly one `complete` and one
`failed` job is overall `failed`. -/
theorem overallStatus_matches_spec :
    (∀ l, overallStatus l = overallStatusSpec l) ∧
    (∀ run : RunEntry, runOverallStatus run = overallStatusSpec (run.models.map Job.status)) ∧
    overallStatus [JobStatus.complete, JobStatus.failed] = "failed" := by
  have main : ∀ l, overallStatus l = overallStatusSpec l := by
    intro l
    have hpart := status_count_partition l
    have hterm := terminal_count l
    by_cases h1 : l = []
    · subst h1
      rfl
    have hn0 : l.length ≠ 0 := by
      simpa [List.length_eq_zero] using h1
    unfold overallStatus overallStatusSpec
    dsimp only
    by_cases h2 : ∀ s ∈ l, s = JobStatus.cancelled
    · have hcc : l.countP (fun s => s == JobStatus.cancelled) = l.length :=
        (countP_status_eq_length l _).mpr h2
      rw [if_neg (by omega), if_neg (by omega), if_neg (by omega), if_pos (by omega),
        if_neg h1, if_pos h2]
    have hccn : l.countP (fun s => s == JobStatus.cancelled) ≠ l.length :=
      fun hcc => h2 ((countP_status_eq_length l _).mp hcc)
    by_cases h3 : (∀ s ∈ l, isTerminal s = true) ∧ ∃ s ∈ l, s = JobStatus.failed
    · have htall : l.countP (fun s => isTerminal s) = l.length :=
        (countP_terminal_eq_length l).mpr h3.1
      have hfpos : l.countP (fun s => s == JobStatus.failed) ≠ 0 :=
        (countP_status_pos l _).mpr h3.2
      rw [if_neg (by omega), if_neg (by omega), if_pos (by omega),
        if_neg h1, if_neg h2, if_pos h3]
    by_cases h4 : ∀ s ∈ l, s = JobStatus.complete
    · have hcomp : l.countP (fun s => s == JobStatus.complete) = l.length :=
        (countP_status_eq_length l _).mpr h4
      rw [if_neg (by omega), if_pos (by omega),
        if_neg h1, if_neg h2, if_neg h3, if_pos h4]
    have hcompn : l.countP (fun s => s == JobStatus.complete) ≠ l.length :=
      fun hc => h4 ((countP_status_eq_length l _).mp hc)
    by_cases h5 : ∀ s ∈ l, s = JobStatus.queued
    · have hq : l.countP (fun s => s == JobStatus.queued) = l.length :=
        (countP_status_eq_length l _).mpr h5
      rw [if_pos (by omega),
        if_neg h1, if_neg h2, if_neg h3, if_neg h4, if_pos h5]
    have hqn : l.countP (fun s => s == JobStatus.queued) ≠ l.length :=
      fun hq => h5 ((countP_status_eq_length l _).mp hq)
    have hfc : ¬ (l.countP (fun s => s == JobStatus.failed) ≠ 0 ∧
        l.countP (fun s => s == JobStatus.failed) +
        l.countP (fun s => s == JobStatus.complete) +
        l.countP (fun s => s == JobStatus.cancelled) = l.length) := by
      rintro ⟨hf, hsum⟩
      exact h3 ⟨(countP_terminal_eq_length l).mp (by omega),
        (countP_status_pos l _).mp hf⟩
    rw [if_neg (by omega), if_neg (by omega), if_neg hfc, if_neg (by omega),
      if_neg hn0, if_neg h1, if_neg h2, if_neg h3, if_neg h4, if_neg h5]
  exact ⟨main, fun run => main (run.models.map Job.status), rfl⟩

/-- `TASK_FILES` (ui/app.py lines 18-22). -/
def TASK_FILES : List (String × String) :=
  [("telemath", "benchmarks/telemath/telemath.py"),
   ("teleqna", "benchmarks/teleqna/teleqna.py"),
   ("telelogs", "benchmarks/telelogs/telelogs.py")]

/-- `TASK_ALIASES` (ui/app.py lines 24-28). -/
def TASK_ALIASES : List (String × String) :=
  [("telecom_bench", "telemath"),
   ("teleqna_bench", "teleqna"),
   ("telelogs_bench", "telelogs")]

/-- Python `dict.get` on a string-keyed table. -/
def lookupStr (m : List (String × String)) (k : String) : Option String :=
  (m.find? fun kv => kv.1 == k).map fun kv => kv.2

/-- `_resolve_task_name` (ui/app.py lines 103-107): map through the alias
table, then require membership in `TASK_FILES`; otherwise raise
`ValueError(f"Unsupported task: {task_name}")` — note the message names
the ORIGINAL requested name. -/
def resolveTaskName (task_name : String) : Except String String :=
  let resolved := (lookupStr TASK_ALIASES task_name).getD task_name
  if (lookupStr TASK_FILES resolved).isSome then Except.ok resolved
  else Except.error ("Unsupported task: " ++ task_name)

/-- `_build_command` (ui/app.py lines 228-270).  `inspectCmd` abstracts
the environment-dependent `INSPECT_CMD` executable path.  Option flags
are appended only when the slot passes the source's emission test: a
truthiness test for `limit`, `max_connections` and `max_tokens`; the
explicit `is not None and != ""` test for `temperature`. -/
def buildCommand (inspectCmd task_name model : String) (o : Options) :
    Except String (List String) :=
  match resolveTaskName task_name with
  | Except.error e => Except.error e
  | Except.ok resolved =>
    let task_file := (lookupStr TASK_FILES resolved).getD ""
    let cmd := [inspectCmd, "eval", task_file, "--display", "log",
      "--log-level", "info", "--log-level-transcript", "info",
      "--log-format", "json", "--model", model]
    let cmd := if o.difficulty.truthy ∧ resolved = "telemath" ∧
        o.difficulty ≠ OptValue.vstr "full"
      then cmd ++ ["-T", "difficulty=" ++ o.difficulty.render] else cmd
    let cmd := if o.limit.truthy then cmd ++ ["--limit", o.limit.render] else cmd
    let cmd := if o.max_connections.truthy
      then cmd ++ ["--max-connections", o.max_connections.render] else cmd
    let cmd := if o.max_tokens.truthy
      then cmd ++ ["--max-tokens", o.max_tokens.render] else cmd
    let cmd := if o.temperature ≠ OptValue.vnone ∧ o.temperature ≠ OptValue.vstr ""
      then cmd ++ ["--temperature", o.temperature.render] else cmd
    Except.ok cmd

/-- Claim C9: in the built command line, the integer options `limit`,
`max_connections` and `max_tokens` are omitted whenever their slot is
falsy — absent, the empty string, or the integer `0` — producing exactly
the command built from an absent slot; whereas `temperature = 0` IS
emitted as a `--temperature` flag, and only an absent slot or the empty
string suppresses it. -/
theorem buildCommand_zero_option_handling (inspectCmd task_name model : String)
    (o : Options) :
    (buildCommand inspectCmd task_name model { o with limit := OptValue.vint 0 }
      = buildCommand inspectCmd task_name model { o with limit := OptValue.vnone }) ∧
    (buildCommand inspectCmd task_name model { o with limit := OptValue.vstr "" }
      = buildCommand inspectCmd task_name model { o with limit := OptValue.vnone }) ∧
    (buildCommand inspectCmd task_name model { o with max_connections := OptValue.vint 0 }
      = buildCommand inspectCmd task_name model { o with max_connections := OptValue.vnone }) ∧
    (buildCommand inspectCmd task_name model { o with max_connections := OptValue.vstr "" }
      = buildCommand inspectCmd task_name model { o with max_connections := OptValue.vnone }) ∧
    (buildCommand inspectCmd task_name model { o with max_tokens := OptValue.vint 0 }
      = buildCommand inspectCmd task_name model { o with max_tokens := OptValue.vnone }) ∧
    (buildCommand inspectCmd task_name model { o with max_tokens := OptValue.vstr "" }
      = buildCommand inspectCmd task_name model { o with max_tokens := OptValue.vnone }) ∧
    (buildCommand inspectCmd task_name model { o with temperature := OptValue.vint 0 }
      = (buildCommand inspectCmd task_name model { o with temperature := OptValue.vnone }).map
          (fun cmd => cmd ++ ["--temperature", "0"])) ∧
    (buildCommand inspectCmd task_name model { o with temperature := OptValue.vstr "" }
      = buildCommand inspectCmd task_name model { o with temperature := OptValue.vnone }) ∧
    (∀ v : OptValue, v ≠ OptValue.vnone → v ≠ OptValue.vstr "" →
      buildCommand inspectCmd task_name model { o with temperature := v }
        = (buildCommand inspectCmd task_name model { o with temperature := OptValue.vnone }).map
            (fun cmd => cmd ++ ["--temperature", v.render])) := by
  cases hres : resolveTaskName task_name with
  | error e =>
    refine ⟨?_, ?_, ?_, ?_, ?_, ?_, ?_, ?_, ?_⟩ <;>
      first
        | (intro v hv1 hv2
           simp [buildCommand, hres, Except.map])
        | simp [buildCommand, hres, Except.map]
  | ok resolved =>
    refine ⟨?_, ?_, ?_, ?_, ?_, ?_, ?_, ?_, ?_⟩
    · simp [buildCommand, hres, OptValue.truthy]
    · simp [buildCommand, hres, OptValue.truthy]
    · simp [buildCommand, hres, OptValue.truthy]
    · simp [buildCommand, hres, OptValue.truthy]
    · simp [buildCommand, hres, OptValue.truthy]
    · simp [buildCommand, hres, OptValue.truthy]
    · have h0 : OptValue.render (OptValue.vint 0) = "0" := rfl
      simp [buildCommand, hres, Except.map, h0]
    · simp [buildCommand, hres]
    · intro v hv1 hv2
      simp [buildCommand, hres, hv1, hv2, Except.map]

theorem buildCommand_zero_option_handling_witness :
    buildCommand "inspect" "telemath" "provider/model"
        { emptyOptions with temperature := OptValue.vint 0 }
      = (buildCommand "inspect" "telemath" "provider/model"
          { emptyOptions with temperature := OptValue.vnone }).map
          (fun cmd => cmd ++ ["--temperature", (OptValue.vint 0).render]) :=
  (buildCommand_zero_option_handling "inspect" "telemath" "provider/model"
    emptyOptions).2.2.2.2.2.2.2.2 (OptValue.vint 0) (by decide) (by decide)

/-- One entry of the `models` array of a create-run request. -/
structure ModelInfo where
  model : Option String
  label : Option String
  provider : Option String
  deriving DecidableEq, Repr

/-- The JSON body of `POST /api/runs` restricted to the keys
`_register_run` reads. -/
structure CreatePayload where
  task : Option String
  models : List ModelInfo
  difficulty : OptValue
  limit : OptValue
  max_connections : OptValue
  max_tokens : OptValue
  temperature : OptValue
  deriving DecidableEq, Repr

/-- Python `model_name.split("/")[-1]`. -/
def lastSegment (name : String) : String := (name.splitOn "/").getLastD name

/-- The job dictionary built in the `_register_run` loop (ui/app.py
lines 405-420); the display name is `label or model_name.split("/")[-1]`
(Python `or`: an absent or empty label falls back to the model name's
last segment). -/
def mkJob (jobId name : String) (label provider : Option String) : Job :=
  let display := match label with
    | some lab => if lab = "" then lastSegment name else lab
    | none => lastSegment name
  { job_id := jobId
    model := name
    display_name := display
    provider := provider
    status := JobStatus.queued
    samples_completed := 0
    total_samples := none
    error := none
    started_at := none
    finished_at := none
    cancel_requested := false
    returncode := none
    log_tail := []
    last_update := none }

/-- The in-memory `RUNS_REGISTRY` mapping run ids to run entries. -/
abbrev Registry := List (String × RunEntry)

/-- `RUNS_REGISTRY.get(run_id)`. -/
def regLookup (reg : Registry) (k : String) : Option RunEntry :=
  (reg.find? fun kv => kv.1 == k).map fun kv => kv.2

/-- `RUNS_REGISTRY[run_id] = entry`. -/
def regInsert (reg : Registry) (k : String) (v : RunEntry) : Registry :=
  (k, v) :: reg.filter fun kv => kv.1 ≠ k

/-- `retrieved_run["models"][job_id] = job` for the entry under `k`. -/
def regAddJob (reg : Registry) (k : String) (job : Job) : Registry :=
  reg.map fun kv =>
    if kv.1 = k then (kv.1, { kv.2 with models := kv.2.models ++ [job] }) else kv

/-- The per-model loop of `_register_run` (ui/app.py lines 398-433): a
falsy model name is skipped; otherwise a job is created and added to the
registry entry, the command is built, and a supervisor thread is
spawned (recorded here as the spawned command line).  `jobIds` abstracts
`uuid.uuid4().hex`, supplying the id of the k-th spawned job. -/
def spawnJobs (inspectCmd task : String) (options : Options)
    (jobIds : Nat → String) (runId : String) :
    Nat → Registry → List (List String) → List ModelInfo →
    Registry × List (List String) × Except String Unit
  | _, reg, spawns, [] => (reg, spawns, Except.ok ())
  | k, reg, spawns, mi :: rest =>
    match mi.model with
    | none => spawnJobs inspectCmd task options jobIds runId k reg spawns rest
    | some name =>
      if name = "" then spawnJobs inspectCmd task options jobIds runId k reg spawns rest
      else
        let job := mkJob (jobIds k) name mi.label mi.provider
        let reg' := regAddJob reg runId job
        match buildCommand inspectCmd task name options with
        | Except.error e => (reg', spawns, Except.error e)
        | Except.ok cmd =>
          spawnJobs inspectCmd task options jobIds runId (k + 1) reg' (spawns ++ [cmd]) rest

/-- `_register_run` (ui/app.py lines 371-435): resolve the task (raising
on an unknown name), reject an empty model list, insert the run entry,
then run the spawn loop.  The returned triple is the registry after the
call, the spawned command lines, and the success/error outcome; both
error returns happen BEFORE the registry insertion, so they leave the
registry argument untouched. -/
def registerRun (inspectCmd : String) (reg : Registry) (runId : String)
    (jobIds : Nat → String) (now : ℚ) (p : CreatePayload) :
    Registry × List (List String) × Except String Unit :=
  match resolveTaskName (p.task.getD "telemath") with
  | Except.error e => (reg, [], Except.error e)
  | Except.ok task =>
    if p.models.isEmpty then
      (reg, [], Except.error "At least one model must be provided")
    else
      let options : Options :=
        { difficulty := p.difficulty
          limit := p.limit
          max_connections := p.max_connections
          max_tokens := p.max_tokens
          temperature := p.temperature }
      let entry : RunEntry :=
        { run_id := runId, task := task, created_at := now, options := options,
          models := [] }
      spawnJobs inspectCmd task options jobIds runId 0 (regInsert reg runId entry) [] p.models

/-- The `create_run` route (ui/app.py lines 438-468): a `ValueError`
from `_register_run` becomes a 400 response with the error message; on
success the run is looked up again (500 if somehow absent) and a 200
response is produced.  The result is (registry after, spawned commands,
HTTP status, error message). -/
def create_run (inspectCmd : String) (reg : Registry) (runId : String)
    (jobIds : Nat → String) (now : ℚ) (p : CreatePayload) :
    Registry × List (List String) × Nat × Option String :=
  match registerRun inspectCmd reg runId jobIds now p with
  | (reg', spawns, Except.error e) => (reg', spawns, 400, some e)
  | (reg', spawns, Except.ok _) =>
    match regLookup reg' runId with
    | none => (reg', spawns, 500, some "Run registration failed")
    | some _ => (reg', spawns, 200, none)

/-- Claim C7: a create-run request with an empty model list is rejected
with a 400 response, no job subprocess is spawned, and the registry is
exactly what it was before the request — no new run entry. -/
theorem create_run_empty_models_rejected (inspectCmd : String) (reg : Registry)
    (runId : String) (jobIds : Nat → String) (now : ℚ) (p : CreatePayload)
    (h : p.models = []) :
    ∃ msg, create_run inspectCmd reg runId jobIds now p = (reg, [], 400, some msg) := by
  unfold create_run registerRun
  cases hres : resolveTaskName (p.task.getD "telemath") with
  | error e => exact ⟨e, rfl⟩
  | ok task =>
    refine ⟨"At least one model must be provided", ?_⟩
    rw [h]
    rfl

/-- A request carrying a valid task but no models. -/
def emptyModelsPayload : CreatePayload :=
  { task := none
    models := []
    difficulty := OptValue.vnone
    limit := OptValue.vnone
    max_connections := OptValue.vnone
    max_tokens := OptValue.vnone
    temperature := OptValue.vnone }

theorem create_run_empty_models_rejected_witness :
    ∃ msg, create_run "inspect" [] "run1" (fun _ => "jid") 0 emptyModelsPayload
      = ([], [], 400, some msg) :=
  create_run_empty_models_rejected "inspect" [] "run1" (fun _ => "jid") 0
    emptyModelsPayload rfl

/-- Claim C8: a create-run request naming a task that is neither a known
task nor a known alias is rejected with a 400 response whose message
contains the unsupported name; the registry is unchanged and no job is
spawned (the rejection happens before registration and spawning). -/
theorem create_run_unsupported_task_rejected (inspectCmd : String)
    (reg : Registry) (runId : String) (jobIds : Nat → String) (now : ℚ)
    (p : CreatePayload) (name : String) (htask : p.task = some name)
    (halias : lookupStr TASK_ALIASES name = none)
    (hfile : lookupStr TASK_FILES name = none) :
    create_run inspectCmd reg runId jobIds now p
      = (reg, [], 400, some ("Unsupported task: " ++ name)) ∧
    (∃ pre suf, ("Unsupported task: " ++ name) = pre ++ (name ++ suf)) := by
  have hres : resolveTaskName (p.task.getD "telemath")
      = Except.error ("Unsupported task: " ++ name) := by
    rw [htask]
    unfold resolveTaskName
    simp [halias, hfile]
  constructor
  · unfold create_run registerRun
    rw [hres]
  · exact ⟨"Unsupported task: ", "", by simp⟩

/-- A request naming an unknown task. -/
def badTaskPayload : CreatePayload :=
  { task := some "bogus"
    models := [{ model := some "provider/model", label := none, provider := none }]
    difficulty := OptValue.vnone
    limit := OptValue.vnone
    max_connections := OptValue.vnone
    max_tokens := OptValue.vnone
    temperature := OptValue.vnone }

theorem create_run_unsupported_task_rejected_witness :
    create_run "inspect" [] "run1" (fun _ => "jid") 0 badTaskPayload
      = ([], [], 400, some ("Unsupported task: " ++ "bogus")) ∧
    (∃ pre suf, ("Unsupported task: " ++ "bogus") = pre ++ ("bogus" ++ suf)) :=
  create_run_unsupported_task_rejected "inspect" [] "run1" (fun _ => "jid") 0
    badTaskPayload "bogus" rfl rfl rfl

end OpenTelcoUi
